import Mathlib

/-!
Verification development for the LORDKARMA pairing-session service
(`src/api.js`, `src/app.js`, and the MongoDB helper `src/db.js`).

The JavaScript source is shallowly embedded: JS objects that hold the
session record become Lean structures with `Option` fields (a missing JS
key is `none`), the filesystem stores (`active/<id>.json` status files,
`sessions/<id>/creds.json` credential bundles) and the MongoDB collection
become association lists keyed by strings, `try`/`catch` around fallible
reads becomes an explicit `Except` result that the embedded function then
discards, and the asynchronous control flow of `startPairing` becomes an
explicit sequence of store updates.  Timestamps and millisecond delays are
`Nat`.  The external Baileys socket is represented by an oracle for
`requestPairingCode` results and by membership of the session id in the
`PAIR_SOCKETS` registry; the archive packager is abstracted to a token
naming the directory it would compress, as the spec treats it as an
external collaborator.
-/

namespace LordKarma

/-! ## Association-list stores (JS `Map`s, directories of JSON files, the
Mongo collection). `getEntry` finds the first binding, `setEntry` replaces
the first binding or appends, `delEntry` drops the first binding. -/

def getEntry {α : Type} (m : List (String × α)) (k : String) : Option α :=
  match m with
  | [] => none
  | (k1, v) :: rest => if k1 = k then some v else getEntry rest k

def setEntry {α : Type} (m : List (String × α)) (k : String) (v : α) :
    List (String × α) :=
  match m with
  | [] => [(k, v)]
  | (k1, v1) :: rest =>
    if k1 = k then (k1, v) :: rest else (k1, v1) :: setEntry rest k v

def delEntry {α : Type} (m : List (String × α)) (k : String) :
    List (String × α) :=
  match m with
  | [] => []
  | (k1, v1) :: rest => if k1 = k then rest else (k1, v1) :: delEntry rest k

/-- Key membership in a plain list of strings (models `Map.has` /
`fs.existsSync` on a directory listing). -/
def hasKeyL (l : List String) (k : String) : Bool :=
  match l with
  | [] => false
  | x :: rest => if x = k then true else hasKeyL rest k

/-- Remove every occurrence of a key (models `Map.delete`, whose keys are
unique, so removing all occurrences is the faithful reading). -/
def mapDelete (l : List String) (k : String) : List String :=
  match l with
  | [] => []
  | x :: rest => if x = k then mapDelete rest k else x :: mapDelete rest k

/-! ## Session record

The JSON object stored in `active/<id>.json`.  Every field is optional
because the JS code builds these objects by spreading (`{...st, code}`),
so any subset of keys can be present.  `error` is included because the
spec's data model lists it; as the theorems show, the code never writes
it. -/

structure SessionRecord where
  status : Option String := none
  created_at : Option Nat := none
  expires_at : Option Nat := none
  phone : Option String := none
  code : Option String := none
  error : Option String := none
deriving Repr, DecidableEq

/-! ## Status and credential files

A status file or creds file on disk is either unreadable (`readFileSync`
throws), not valid JSON (`JSON.parse` throws), or a parsed object.  A file
that does not exist at all is represented by the absence of an entry in the
store (`Option _ = none`). -/

inductive StatusFile where
  | unreadable
  | notJson
  | obj (r : SessionRecord)
deriving Repr, DecidableEq

inductive CredsFile where
  | unreadable
  | notJson
  /-- A parsed `creds.json`; `registered` is the truthiness of its
  `registered` key (`none` when the key is absent or the parsed value is
  not an object). -/
  | obj (registered : Option Bool)
deriving Repr, DecidableEq

/-- Models `JSON.parse(fs.readFileSync(p, "utf-8"))` on a creds file that
exists: an `Except` whose error is the thrown exception. -/
def readFileCredsE : CredsFile → Except String (Option Bool)
  | .unreadable => .error "EIO"
  | .notJson => .error "SyntaxError: Unexpected token"
  | .obj r => .ok r

/-- `isRegisteredSession` from `src/api.js` (lines 152-161): return `false`
when `creds.json` does not exist (`existsSync` is false), catch any
read/parse exception as `false`, and otherwise return `!!creds?.registered`. -/
def isRegisteredSession (file : Option CredsFile) : Bool :=
  match file with
  | none => false
  | some f =>
    match readFileCredsE f with
    | .error _ => false
    | .ok r => r.getD false

/-- Models `JSON.parse(fs.readFileSync(statusPath(id)))`: a missing file
throws `ENOENT`, an unreadable file throws an I/O error, malformed JSON
throws a syntax error. -/
def readFileStatusE : Option StatusFile → Except String SessionRecord
  | none => .error "ENOENT"
  | some .unreadable => .error "EIO"
  | some .notJson => .error "SyntaxError: Unexpected token"
  | some (.obj r) => .ok r

/-- `readStatus` from `src/api.js` (lines 140-146): the whole read is in a
`try`, any exception yields `null`. -/
def readStatus (file : Option StatusFile) : Option SessionRecord :=
  match readFileStatusE file with
  | .error _ => none
  | .ok r => some r

/-! ## Mongo documents and `dbUpsert`

A document is a list of named JSON values.  `updateOne` with `$set` and
`$setOnInsert` follows MongoDB's semantics: the update document is first
validated, and a field path appearing under two update operators is a
conflict that makes the whole call throw; otherwise `$set` is applied to
the matched document, or, on upsert-insert, the new document is built from
the filter, `$setOnInsert` and `$set`. -/

inductive JVal where
  | s (v : String)
  | n (v : Nat)
deriving Repr, DecidableEq

abbrev Doc : Type := List (String × JVal)

/-- Apply a `$set` document: each listed field overwrites the target. -/
def applySet (d : Doc) (s : Doc) : Doc :=
  s.foldl (fun acc kv => setEntry acc kv.1 kv.2) d

/-- Two update-operator documents conflict when they mention a common
field path. -/
def docsConflict (a b : Doc) : Bool :=
  a.any (fun kv => (getEntry b kv.1).isSome)

/-- `col.updateOne({session_id}, {$set, $setOnInsert}, {upsert: true})`. -/
def updateOne (coll : List (String × Doc)) (session_id : String)
    (set soi : Doc) : Except String (List (String × Doc)) :=
  if docsConflict set soi then
    .error "Updating the path would create a conflict"
  else
    match getEntry coll session_id with
    | some d => .ok (setEntry coll session_id (applySet d set))
    | none => .ok (setEntry coll session_id (applySet (applySet [] soi) set))

/-- The `try { await col.updateOne(...) } catch (e) { log }` pattern both
`dbUpsert` revisions share: a thrown update leaves the collection as it
was. -/
def runUpsert (coll : List (String × Doc)) (session_id : String)
    (set soi : Doc) : List (String × Doc) :=
  match updateOne coll session_id set soi with
  | .error _ => coll
  | .ok c => c

/-- `dbUpsert` as in the first revision of `src/api.js` (lines 91-108):
`created_at` is destructured out of the patch, the rest is `$set` together
with `session_id` and `updated_at`, and `created_at` goes to
`$setOnInsert`.  Any thrown error is caught and only logged (`enabled`
models `getCollection()` returning a collection rather than `null`). -/
def dbUpsertV1 (enabled : Bool) (coll : List (String × Doc))
    (session_id : String) (patch : Doc) (now : Nat) : List (String × Doc) :=
  if enabled then
    let created_at := getEntry patch "created_at"
    let rest := delEntry patch "created_at"
    let set := applySet rest [("session_id", .s session_id), ("updated_at", .n now)]
    runUpsert coll session_id set [("created_at", created_at.getD (.n now))]
  else coll

/-- `dbUpsert` as in the second revision of `src/api.js` (lines 506-522):
the whole patch — `created_at` included — is spread into `$set`, while
`$setOnInsert` still names `created_at`. -/
def dbUpsertV2 (enabled : Bool) (coll : List (String × Doc))
    (session_id : String) (patch : Doc) (now : Nat) : List (String × Doc) :=
  if enabled then
    let set := applySet patch [("session_id", .s session_id), ("updated_at", .n now)]
    runUpsert coll session_id set [("created_at", (getEntry patch "created_at").getD (.n now))]
  else coll

/-- The `created_at` field of the stored document for an id. -/
def createdAtOf (coll : List (String × Doc)) (id : String) : Option JVal :=
  (getEntry coll id).bind (fun d => getEntry d "created_at")

/-- The JSON document a session record serializes to (keys present exactly
when the record field is). -/
def optField (k : String) (v : Option JVal) : Doc :=
  match v with
  | none => []
  | some x => [(k, x)]

def SessionRecord.toDoc (r : SessionRecord) : Doc :=
  optField "status" (r.status.map JVal.s) ++
  optField "created_at" (r.created_at.map JVal.n) ++
  optField "expires_at" (r.expires_at.map JVal.n) ++
  optField "phone" (r.phone.map JVal.s) ++
  optField "code" (r.code.map JVal.s) ++
  optField "error" (r.error.map JVal.s)

/-! ## The service state

`World` gathers every store `src/api.js` mutates or reads:
`active` is the `ACTIVE_DIR` directory of status files, `sessDirs` the set
of `SESS_DIR/<id>` directories, `creds` the `creds.json` files inside
them, `db` the Mongo collection (`mongo` is whether `getCollection()`
yields a collection), `sockets` the keys of the in-memory `PAIR_SOCKETS`
map, and `ended` records the ids whose socket `safeEnd` has been called
on (for observing teardown). -/

structure World where
  active : List (String × StatusFile) := []
  sessDirs : List String := []
  creds : List (String × CredsFile) := []
  db : List (String × Doc) := []
  mongo : Bool := false
  sockets : List String := []
  ended : List String := []
deriving Repr, DecidableEq

/-- `readStatus(sessionId)` against the live filesystem. -/
def readStatusW (w : World) (id : String) : Option SessionRecord :=
  readStatus (getEntry w.active id)

/-- `isRegisteredSession(sessionId)` against the live filesystem. -/
def isRegisteredW (w : World) (id : String) : Bool :=
  isRegisteredSession (getEntry w.creds id)

/-- `writeStatus(sessionId, data)` (lines 131-138): synchronously write the
status file, then best-effort mirror the same data to Mongo via
`dbUpsert` (the first-revision `dbUpsert`, since that is the revision this
`writeStatus` belongs to). -/
def writeStatus (now : Nat) (w : World) (id : String) (r : SessionRecord) :
    World :=
  { w with
    active := setEntry w.active id (StatusFile.obj r)
    db := dbUpsertV1 w.mongo w.db id r.toDoc now }

/-- `dbGet(session_id)` (lines 110-118): `null` without a collection or on
error, else `findOne`. -/
def dbGet (w : World) (id : String) : Option Doc :=
  if w.mongo then getEntry w.db id else none

/-- `safeEnd(s); PAIR_SOCKETS.delete(id)` guarded by
`PAIR_SOCKETS.get(id)` being present, as in the TTL cleanup. -/
def removeSocket (w : World) (id : String) : World :=
  if hasKeyL w.sockets id then
    { w with ended := id :: w.ended, sockets := mapDelete w.sockets id }
  else w

/-- The body of the TTL `setTimeout` callback (lines 321-332): re-read the
status; if present and not `"ready"`, overwrite with status `"expired"`;
then end and remove any socket still registered for the id. -/
def ttlFire (now : Nat) (w : World) (id : String) : World :=
  let w1 :=
    match readStatusW w id with
    | some st2 =>
      if st2.status ≠ some "ready" then
        writeStatus now w id { st2 with status := some "expired" }
      else w
    | none => w
  removeSocket w1 id

/-- The write `startPairing` performs after `requestPairCode` succeeds
(lines 317-318): merge the code into whatever record is currently stored
(an empty object if the read fails). -/
def persistCode (now : Nat) (w : World) (id : String) (code : String) :
    World :=
  let st := (readStatusW w id).getD {}
  writeStatus now w id { st with code := some code }

/-! ## HTTP surface types -/

/-- Normalized record served by `GET /status/:id` when falling back to the
secondary store: the route rebuilds exactly the keys
`status, created_at, expires_at, code, phone` from the Mongo document. -/
def getStrField (d : Doc) (k : String) : Option String :=
  match getEntry d k with
  | some (.s v) => some v
  | _ => none

def getNatField (d : Doc) (k : String) : Option Nat :=
  match getEntry d k with
  | some (.n v) => some v
  | _ => none

def normalizeDb (d : Doc) : SessionRecord :=
  { status := getStrField d "status"
    created_at := getNatField d "created_at"
    expires_at := getNatField d "expires_at"
    code := getStrField d "code"
    phone := getStrField d "phone" }

inductive StatusResp where
  | missing
  | ok (r : SessionRecord)
deriving Repr, DecidableEq

/-- `router.get("/status/:id")` (lines 370-391): read primary, fall back to
Mongo and normalize, `404` when both miss; then opportunistically upgrade a
non-`ready` record to `ready` when the registration probe is true, serving
the re-read record in that case. -/
def statusRoute (now : Nat) (w : World) (id : String) : World × StatusResp :=
  let stOpt :=
    match readStatusW w id with
    | some st => some st
    | none => (dbGet w id).map normalizeDb
  match stOpt with
  | none => (w, .missing)
  | some st =>
    if st.status ≠ some "ready" ∧ isRegisteredW w id = true then
      let w2 := writeStatus now w id { st with status := some "ready" }
      (w2, .ok ((readStatusW w2 id).getD {}))
    else (w, .ok st)

inductive ExportResp where
  | notFound
  | notReady
  /-- `200` with `zip_base64`: the archive packager applied to the
  session directory (abstracted, per the spec, to the directory name). -/
  | okZip (dir : String)
deriving Repr, DecidableEq

/-- `router.get("/session/:id")` (lines 394-412): `404` when the session
directory does not exist, `409` when the registration probe is false, else
the zipped directory.  The route performs no store writes, which the
returned `World` makes explicit. -/
def sessionRoute (w : World) (id : String) : World × ExportResp :=
  if hasKeyL w.sessDirs id then
    if isRegisteredW w id then (w, .okZip id) else (w, .notReady)
  else (w, .notFound)

/-! ## The bounded pairing-code retry loop

`requestPairCode(sock, num, tries = 6)` (lines 196-212).  The socket's
`requestPairingCode` is an oracle from the attempt index to either a
thrown error (`Except.error`) or a returned string (`""` standing for any
falsy result).  The loop awaits `delay(400)` before every attempt and
`delay(900 + i*250)` after a thrown attempt; `elapsed` sums these explicit
delays so the TTL scheduling point can be talked about. -/

deriving instance DecidableEq for Except

def failAttempt (r : Except String String) : Bool :=
  match r with
  | .error _ => true
  | .ok c => c = ""

structure CodeLoopOut where
  result : Except String String
  attempts : Nat
  elapsed : Nat
deriving Repr, DecidableEq

def requestPairCodeGo (oracle : Nat → Except String String)
    (remaining i : Nat) (lastErr : Option String) (elapsed : Nat) :
    CodeLoopOut :=
  match remaining with
  | 0 => ⟨.error (lastErr.getD "Failed to request pairing code"), i, elapsed⟩
  | r + 1 =>
    let elapsed1 := elapsed + 400
    match oracle i with
    | .ok c =>
      if c ≠ "" then ⟨.ok c, i + 1, elapsed1⟩
      else requestPairCodeGo oracle r (i + 1) (some "Empty pairing code") elapsed1
    | .error e => requestPairCodeGo oracle r (i + 1) (some e) (elapsed1 + (900 + i * 250))

def requestPairCode (oracle : Nat → Except String String) (tries : Nat) :
    CodeLoopOut :=
  requestPairCodeGo oracle tries 0 none 0

/-! ## `startPairing` -/

def ttlMs : Nat := 10 * 60 * 1000

structure PairOut where
  session_id : String
  code : String
  expires_at : Nat
deriving Repr, DecidableEq

structure PairRun where
  w : World
  result : Except String PairOut
  /-- Absolute time at which the TTL `setTimeout` callback will fire, when
  one was scheduled: the timer is armed only after the pairing code is
  obtained, with delay `ttlMs` from that moment. -/
  timerFireAt : Option Nat
  attempts : Nat
deriving Repr, DecidableEq

/-- `startPairing(num)` (lines 217-335) as a sequence of store updates:
create the session directory, write the `pending` record, register the
socket in `PAIR_SOCKETS`, run the bounded code-retry loop; on failure the
thrown error propagates (no further write, no timer); on success merge the
code into the stored record and arm the TTL timer.  `session_id` stands
for the fresh `makeSessionId()` result and `now` for `Date.now()` at
creation; the explicit `delay` calls of the retry loop are the elapsed
time accounted between creation and timer arming. -/
def startPairing (w : World) (session_id : String) (now : Nat)
    (num : String) (oracle : Nat → Except String String) : PairRun :=
  let w1 := { w with
    sessDirs := if hasKeyL w.sessDirs session_id then w.sessDirs
                else session_id :: w.sessDirs }
  let expires_at := now + ttlMs
  let w2 := writeStatus now w1 session_id
    { status := some "pending", created_at := some now
      expires_at := some expires_at, phone := some num }
  let w3 := { w2 with sockets := session_id :: w2.sockets }
  let loop := requestPairCode oracle 6
  match loop.result with
  | .error e => ⟨w3, .error e, none, loop.attempts⟩
  | .ok code =>
    let w4 := persistCode now w3 session_id code
    ⟨w4, .ok ⟨session_id, code, expires_at⟩,
      some (now + loop.elapsed + ttlMs), loop.attempts⟩

/-! ## Routes: secret gate, rate limiter, `/pair` and `/code` -/

/-- JS `a || b` on strings, where only `""` is falsy. -/
def jsOrS (a b : String) : String :=
  if a ≠ "" then a else b

/-- JS `a || b` on optional strings (`undefined` and `""` are falsy). -/
def jsOr (a b : Option String) : Option String :=
  match a with
  | some s => if s ≠ "" then some s else b
  | none => b

/-- `normalizeNumber(raw)` (lines 55-61): falsy input gives `null`, else
keep the digits only and require at least 8 of them. -/
def normalizeNumber (raw : Option String) : Option String :=
  match raw with
  | none => none
  | some s =>
    if s = "" then none
    else
      let num := String.mk (s.toList.filter Char.isDigit)
      if num.length < 8 then none else some num

structure Req where
  headerSecret : String := ""
  querySecret : String := ""
  bodySecret : String := ""
  bodyPassword : String := ""
  queryNumber : Option String := none
  bodyNumber : Option String := none
  bodyPhone : Option String := none
  bodyNum : Option String := none
deriving Repr, DecidableEq

/-- `checkSecret(req)` (lines 66-81): the gate is disabled when the env
secret is falsy; otherwise the first truthy candidate among the header,
query `secret`, body `secret` and body `password` is trimmed and compared. -/
def checkSecret (secretEnv : String) (req : Req) : Bool :=
  if secretEnv = "" then true
  else
    let provided :=
      (jsOrS req.headerSecret
        (jsOrS req.querySecret (jsOrS req.bodySecret req.bodyPassword))).trim
    provided ≠ "" && provided = secretEnv

inductive HttpResp where
  | ok200 (out : PairOut)
  | bad400
  | unauthorized401
  | tooMany429
  | err500 (msg : String)
deriving Repr, DecidableEq

/-- The shared `/pair` handler body (lines 341-353, after the middleware):
validate the number, run `startPairing`, and map the outcome to
`200`/`400`/`500` (`e?.message || "Pairing service failed"`). -/
def pairHandler (w : World) (sid : String) (now : Nat)
    (rawNum : Option String) (oracle : Nat → Except String String) :
    World × HttpResp :=
  match normalizeNumber rawNum with
  | none => (w, .bad400)
  | some num =>
    let run := startPairing w sid now num oracle
    match run.result with
    | .ok out => (run.w, .ok200 out)
    | .error e =>
      (run.w, .err500 (if e = "" then "Pairing service failed" else e))

/-- `router.post("/pair", pairLimiter, requireSecret, ...)`: the limiter
(modelled by its per-client decision) and the secret gate run before the
handler. -/
def postPair (rateLimited : Bool) (secretEnv : String) (req : Req)
    (w : World) (sid : String) (now : Nat)
    (oracle : Nat → Except String String) : World × HttpResp :=
  if rateLimited then (w, .tooMany429)
  else if checkSecret secretEnv req = false then (w, .unauthorized401)
  else pairHandler w sid now
    (jsOr req.bodyNumber (jsOr req.bodyPhone req.bodyNum)) oracle

/-- `router.get("/code")` (lines 356-367): no limiter, no secret gate; the
number comes from the query string and failures answer
`500 Service Unavailable`. -/
def getCode (req : Req) (w : World) (sid : String) (now : Nat)
    (oracle : Nat → Except String String) : World × HttpResp :=
  match normalizeNumber req.queryNumber with
  | none => (w, .bad400)
  | some num =>
    let run := startPairing w sid now num oracle
    match run.result with
    | .ok out => (run.w, .ok200 out)
    | .error _ => (run.w, .err500 "Service Unavailable")

/-! ## The `connection.update` ready latch (lines 253-309)

Each `"open"` event starts one asynchronous run of the handler.  The
handler is cut at its `await` points into atomic segments, reflected in a
program counter per run:

* pc 0 — the guard `if (!finalized && u.connection === "open")`; passing
  it enters `await delay(1200)`;
* pc 1 — resumption after the settle delay: the probe
  `isRegisteredSession(id) || sock.authState.creds.registered`; when true,
  `finalized = true`, re-read the status and write it back with status
  `"ready"` (one synchronous segment), then `await delay(2000)`;
* pc 2 — the `sock.sendMessage` welcome attempt, then `await delay(20000)`;
* pc 3 — `safeEnd(sock); PAIR_SOCKETS.delete(id)`;
* pc 4 — done (also reached when the guard or the probe fails).

`sendCount` counts welcome-notification attempts. -/

structure LatchShared where
  finalized : Bool
  w : World
  sendCount : Nat
deriving Repr, DecidableEq

def handlerStep (now : Nat) (id : String) (inMemRegistered : Bool)
    (sh : LatchShared) (pc : Nat) : Nat × LatchShared :=
  match pc with
  | 0 => if sh.finalized then (4, sh) else (1, sh)
  | 1 =>
    if isRegisteredW sh.w id || inMemRegistered then
      let st := (readStatusW sh.w id).getD {}
      let w2 := writeStatus now sh.w id { st with status := some "ready" }
      (2, { sh with finalized := true, w := w2 })
    else (4, sh)
  | 2 => (3, { sh with sendCount := sh.sendCount + 1 })
  | 3 => (4, { sh with w := removeSocket sh.w id })
  | _ => (4, sh)

/-- Two concurrent handler runs (two `"open"` events) interleaved by a
schedule: `false` steps the first run, `true` the second. -/
structure LatchSys where
  sh : LatchShared
  pc0 : Nat
  pc1 : Nat
deriving Repr, DecidableEq

def sysStep (now : Nat) (id : String) (inMemRegistered : Bool)
    (s : LatchSys) (t : Bool) : LatchSys :=
  if t then
    let out := handlerStep now id inMemRegistered s.sh s.pc1
    { s with pc1 := out.1, sh := out.2 }
  else
    let out := handlerStep now id inMemRegistered s.sh s.pc0
    { s with pc0 := out.1, sh := out.2 }

def sysRun (now : Nat) (id : String) (inMemRegistered : Bool)
    (s : LatchSys) : List Bool → LatchSys
  | [] => s
  | t :: rest => sysRun now id inMemRegistered (sysStep now id inMemRegistered s t) rest

/-! ## Claim-side vocabulary and concrete demonstration inputs -/

/-- The status stored in the primary store for an id, when a record with a
`status` key is readable there. -/
def storedStatus (w : World) (id : String) : Option String :=
  (readStatusW w id).bind (fun r => r.status)

/-- Modelled from the wording of claim C1 (not from the source): a status
move is allowed when it is a no-move, a step of
`pending → code_issued → ready`, or a move from a non-terminal status to
`failed` or `expired`. -/
def claimAllowedMove (a b : String) : Prop :=
  a = b ∨ (a = "pending" ∧ b = "code_issued") ∨
  (a = "code_issued" ∧ b = "ready") ∨
  ((a = "pending" ∨ a = "code_issued") ∧ (b = "failed" ∨ b = "expired"))

instance (a b : String) : Decidable (claimAllowedMove a b) := by
  unfold claimAllowedMove
  infer_instance

def w0 : World := {}

/-- An authority whose `requestPairingCode` throws on every attempt. -/
def failOracle : Nat → Except String String := fun _ => .error "boom"

/-- An authority whose `requestPairingCode` succeeds immediately. -/
def okOracle : Nat → Except String String := fun _ => .ok "LKCODE12"

/-- A session whose stored status is `"expired"` while its credential
bundle carries `registered: true` (the TTL fired before a status query
observed the registration). -/
def c1record : SessionRecord :=
  { status := some "expired", created_at := some 0,
    expires_at := some 600000, phone := some "15551234567" }

def c1world : World :=
  { active := [("LK1", StatusFile.obj c1record)]
    sessDirs := ["LK1"]
    creds := [("LK1", .obj (some true))] }

def c8record : SessionRecord :=
  { status := some "pending", created_at := some 0,
    expires_at := some 600000, phone := some "15551234567",
    code := some "LKCODE12" }

/-- A `code_issued`-stage session (code persisted, still pending) whose
credential bundle has just become registered, with its socket still live. -/
def c8world : World :=
  { active := [("LK1", StatusFile.obj c8record)]
    sessDirs := ["LK1"]
    creds := [("LK1", .obj (some true))]
    sockets := ["LK1"] }

def c8init : LatchSys :=
  { sh := { finalized := false, w := c8world, sendCount := 0 }, pc0 := 0, pc1 := 0 }

/-- Both handler runs pass the `!finalized` guard before either reaches the
probe; the first run then completes, and the second resumes after its
settle delay. -/
def c8raceSchedule : List Bool := [false, true, false, false, false, true, true, true]

/-- The first handler run completes before the second starts. -/
def c8serialSchedule : List Bool := [false, false, false, false, true, true, true, true]

/-- An existing mirrored document with a known `created_at`. -/
def c6doc : Doc :=
  [("session_id", .s "LK1"), ("status", .s "pending"), ("created_at", .n 111),
   ("expires_at", .n 600111), ("phone", .s "15551234567"), ("updated_at", .n 111)]

def c6coll : List (String × Doc) := [("LK1", c6doc)]

/-- A later mirrored patch that carries a different `created_at`. -/
def c6patch : Doc :=
  [("status", .s "ready"), ("created_at", .n 999), ("expires_at", .n 600999),
   ("phone", .s "15551234567")]

/-- The record `startPairing` writes at creation. -/
def pendingRecord (now : Nat) (num : String) : SessionRecord :=
  { status := some "pending", created_at := some now,
    expires_at := some (now + ttlMs), phone := some num }

/-- The run of `startPairing` in which every code request throws. -/
def c2run : PairRun := startPairing w0 "LK1" 0 "15551234567" failOracle

/-- The run of `startPairing` in which the first code request succeeds. -/
def c3run : PairRun := startPairing w0 "LK1" 0 "15551234567" okOracle

/-- A registered session directory for exercising the export route. -/
def c4world : World :=
  { sessDirs := ["LK4"]
    creds := [("LK4", .obj (some true))] }

/-- A session present only in the secondary store. -/
def c7doc : Doc :=
  [("session_id", .s "LK7"), ("status", .s "pending"), ("created_at", .n 7),
   ("expires_at", .n 600007), ("phone", .s "15551234567")]

def c7world : World :=
  { db := [("LK7", c7doc)], mongo := true }

/-- A pending session with a live socket, for exercising the TTL action. -/
def c5world : World :=
  { active := [("LK5", StatusFile.obj (pendingRecord 0 "15551234567"))]
    sessDirs := ["LK5"]
    sockets := ["LK5"] }

def readyRecord : SessionRecord :=
  { status := some "ready", created_at := some 0,
    expires_at := some 600000, phone := some "15551234567" }

/-- A session already `ready`, with every store populated, for witnessing
ready-preservation. -/
def c1readyWorld : World :=
  { active := [("LKR", StatusFile.obj readyRecord)]
    sessDirs := ["LKR"]
    creds := [("LKR", .obj (some true))]
    sockets := ["LKR"] }

/-! ## Store lemmas -/

theorem getEntry_setEntry_self {α : Type} (m : List (String × α)) (k : String)
    (v : α) : getEntry (setEntry m k v) k = some v := by
  induction m with
  | nil => simp [getEntry, setEntry]
  | cons hd tl ih =>
    obtain ⟨k1, v1⟩ := hd
    by_cases h : k1 = k
    · subst h
      simp [getEntry, setEntry]
    · simp [getEntry, setEntry, h, ih]

theorem getEntry_setEntry_ne {α : Type} (m : List (String × α))
    (k k' : String) (v : α) (h : k ≠ k') :
    getEntry (setEntry m k v) k' = getEntry m k' := by
  induction m with
  | nil => simp [getEntry, setEntry, h]
  | cons hd tl ih =>
    obtain ⟨k1, v1⟩ := hd
    by_cases h1 : k1 = k
    · subst h1
      simp [getEntry, setEntry, h]
    · by_cases h2 : k1 = k'
      · simp [getEntry, setEntry, h1, h2, Ne.symm h]
      · simp [getEntry, setEntry, h1, h2, ih]

theorem hasKeyL_mapDelete_self (l : List String) (k : String) :
    hasKeyL (mapDelete l k) k = false := by
  induction l with
  | nil => simp [mapDelete, hasKeyL]
  | cons x rest ih =>
    by_cases h : x = k
    · simp [mapDelete, h, ih]
    · simp [mapDelete, hasKeyL, h, ih]

theorem removeSocket_active (w : World) (id : String) :
    (removeSocket w id).active = w.active := by
  by_cases h : hasKeyL w.sockets id <;> simp [removeSocket, h]

theorem removeSocket_noSocket (w : World) (id : String) :
    hasKeyL (removeSocket w id).sockets id = false := by
  by_cases h : hasKeyL w.sockets id <;>
    simp [removeSocket, h, hasKeyL_mapDelete_self]

theorem readStatusW_writeStatus_self (now : Nat) (w : World) (id : String)
    (r : SessionRecord) : readStatusW (writeStatus now w id r) id = some r := by
  simp [readStatusW, writeStatus, readStatus, readFileStatusE,
    getEntry_setEntry_self]

theorem readStatusW_writeStatus_ne (now : Nat) (w : World) (id id' : String)
    (r : SessionRecord) (h : id ≠ id') :
    readStatusW (writeStatus now w id r) id' = readStatusW w id' := by
  simp [readStatusW, writeStatus, getEntry_setEntry_ne _ _ _ _ h]

/-! ## Mongo upsert lemmas -/

theorem getEntry_applySet_notMem (d s : Doc) (k : String)
    (h : getEntry s k = none) : getEntry (applySet d s) k = getEntry d k := by
  induction s generalizing d with
  | nil => rfl
  | cons kv rest ih =>
    obtain ⟨k1, v1⟩ := kv
    have h1 : k1 ≠ k := by
      intro he
      rw [getEntry] at h
      simp [he] at h
    have h2 : getEntry rest k = none := by
      rw [getEntry] at h
      simpa [h1] using h
    simp only [applySet, List.foldl_cons]
    have := ih (setEntry d k1 v1) h2
    simp only [applySet] at this
    rw [this, getEntry_setEntry_ne _ _ _ _ h1]

theorem docsConflict_singleton (s : Doc) (k : String) (v : JVal) :
    docsConflict s [(k, v)] = (getEntry s k).isSome := by
  induction s with
  | nil => rfl
  | cons kv rest ih =>
    obtain ⟨k1, v1⟩ := kv
    by_cases h : k1 = k
    · subst h
      simp [docsConflict, getEntry]
    · simp only [docsConflict, List.any_cons] at *
      rw [ih]
      simp [getEntry, h, Ne.symm h]

theorem runUpsert_preserves_createdAt (coll : List (String × Doc))
    (id : String) (set : Doc) (v : JVal)
    (h : (getEntry coll id).isSome = true) :
    createdAtOf (runUpsert coll id set [("created_at", v)]) id =
      createdAtOf coll id := by
  obtain ⟨d, hd⟩ : ∃ d, getEntry coll id = some d :=
    Option.isSome_iff_exists.mp h
  by_cases hset : (getEntry set "created_at").isSome
  · have hconf : docsConflict set [("created_at", v)] = true := by
      rw [docsConflict_singleton]
      exact hset
    simp [runUpsert, updateOne, hconf]
  · have hnone : getEntry set "created_at" = none :=
      Option.not_isSome_iff_eq_none.mp hset
    have hconf : docsConflict set [("created_at", v)] = false := by
      rw [docsConflict_singleton, hnone]
      rfl
    simp [runUpsert, updateOne, hconf, hd, createdAtOf,
      getEntry_setEntry_self, getEntry_applySet_notMem _ _ _ hnone]

/-! ## Retry-loop lemmas -/

theorem requestPairCodeGo_allFail (oracle : Nat → Except String String) :
    ∀ (r i : Nat) (le : Option String) (el : Nat),
    (∀ j, j < r → failAttempt (oracle (i + j)) = true) →
    ∃ e el2, requestPairCodeGo oracle r i le el =
      ⟨Except.error e, i + r, el2⟩ := by
  intro r
  induction r with
  | zero =>
    intro i le el _
    exact ⟨le.getD "Failed to request pairing code", el, rfl⟩
  | succ n ih =>
    intro i le el h
    have h0 : failAttempt (oracle i) = true := by
      have := h 0 (Nat.succ_pos n)
      rwa [Nat.add_zero] at this
    have hshift : ∀ j, j < n → failAttempt (oracle (i + 1 + j)) = true := by
      intro j hj
      have := h (j + 1) (by omega)
      have heq : i + (j + 1) = i + 1 + j := by omega
      rwa [heq] at this
    have harith : i + 1 + n = i + (n + 1) := by omega
    cases hc : oracle i with
    | ok c =>
      have hce : c = "" := by
        rw [hc] at h0
        simpa [failAttempt] using h0
      subst hce
      obtain ⟨e, el2, heq⟩ :=
        ih (i + 1) (some "Empty pairing code") (el + 400) hshift
      refine ⟨e, el2, ?_⟩
      rw [show requestPairCodeGo oracle (n + 1) i le el =
          requestPairCodeGo oracle n (i + 1) (some "Empty pairing code")
            (el + 400) by simp [requestPairCodeGo, hc]]
      rw [heq, harith]
    | error e0 =>
      obtain ⟨e, el2, heq⟩ :=
        ih (i + 1) (some e0) (el + 400 + (900 + i * 250)) hshift
      refine ⟨e, el2, ?_⟩
      rw [show requestPairCodeGo oracle (n + 1) i le el =
          requestPairCodeGo oracle n (i + 1) (some e0)
            (el + 400 + (900 + i * 250)) by simp [requestPairCodeGo, hc]]
      rw [heq, harith]

theorem requestPairCodeGo_ok_elapsed (oracle : Nat → Except String String) :
    ∀ (r i : Nat) (le : Option String) (el : Nat) (c : String),
    (requestPairCodeGo oracle r i le el).result = Except.ok c →
    el + 400 ≤ (requestPairCodeGo oracle r i le el).elapsed := by
  intro r
  induction r with
  | zero =>
    intro i le el c h
    simp [requestPairCodeGo] at h
  | succ n ih =>
    intro i le el c h
    cases hc : oracle i with
    | ok c0 =>
      by_cases hc0 : c0 = ""
      · subst hc0
        have hrw : requestPairCodeGo oracle (n + 1) i le el =
            requestPairCodeGo oracle n (i + 1) (some "Empty pairing code")
              (el + 400) := by
          simp [requestPairCodeGo, hc]
        rw [hrw] at h ⊢
        have := ih (i + 1) (some "Empty pairing code") (el + 400) c h
        omega
      · have hrw : requestPairCodeGo oracle (n + 1) i le el =
            ⟨Except.ok c0, i + 1, el + 400⟩ := by
          simp [requestPairCodeGo, hc, hc0]
        rw [hrw]
    | error e0 =>
      have hrw : requestPairCodeGo oracle (n + 1) i le el =
          requestPairCodeGo oracle n (i + 1) (some e0)
            (el + 400 + (900 + i * 250)) := by
        simp [requestPairCodeGo, hc]
      rw [hrw] at h ⊢
      have := ih (i + 1) (some e0) (el + 400 + (900 + i * 250)) c h
      omega

/-! ## Frame lemmas -/

theorem isRegisteredW_isSome (w : World) (id : String)
    (h : isRegisteredW w id = true) : (getEntry w.creds id).isSome = true := by
  unfold isRegisteredW isRegisteredSession at h
  cases hg : getEntry w.creds id with
  | none => rw [hg] at h; cases h
  | some f => simp

theorem readStatusW_removeSocket (w : World) (id id' : String) :
    readStatusW (removeSocket w id') id = readStatusW w id := by
  unfold readStatusW
  rw [removeSocket_active]

theorem writeStatus_sockets (now : Nat) (w : World) (id : String)
    (r : SessionRecord) : (writeStatus now w id r).sockets = w.sockets := rfl

theorem storedStatus_write_ne (now : Nat) (w : World) (tid id : String)
    (r : SessionRecord) (h : tid ≠ id) :
    storedStatus (writeStatus now w tid r) id = storedStatus w id := by
  unfold storedStatus
  rw [readStatusW_writeStatus_ne now w tid id r h]

/-! ## Claim theorems -/

/-- Claim C10 (confirmed): the registration probe and the primary status
read are total.  `isRegisteredSession` returns `false` — it never throws —
whenever `creds.json` is absent, unreadable, invalid JSON, or lacks a
truthy `registered` flag (that is, in every case other than a parsed
object with `registered: true`); and `readStatus` returns `null` whenever
the status file is absent or corrupt, returning the parsed record
otherwise.  Throwing is modelled by the inner `Except`, which both
functions catch, so both are total by construction. -/
theorem C10_total_probes (cf : Option CredsFile) (sf : Option StatusFile) :
    (cf ≠ some (CredsFile.obj (some true)) → isRegisteredSession cf = false)
    ∧ isRegisteredSession (some (CredsFile.obj (some true))) = true
    ∧ (sf = none ∨ sf = some StatusFile.unreadable ∨
        sf = some StatusFile.notJson → readStatus sf = none)
    ∧ (∀ r, readStatus (some (StatusFile.obj r)) = some r) := by
  refine ⟨?_, rfl, ?_, fun r => rfl⟩
  · intro h
    match cf with
    | none => rfl
    | some .unreadable => rfl
    | some .notJson => rfl
    | some (.obj none) => rfl
    | some (.obj (some false)) => rfl
    | some (.obj (some true)) => exact absurd rfl h
  · rintro (rfl | rfl | rfl) <;> rfl

theorem C10_total_probes_witness :
    (some CredsFile.notJson ≠ some (CredsFile.obj (some true)))
    ∧ isRegisteredSession (some CredsFile.notJson) = false
    ∧ readStatus (some StatusFile.notJson) = none := by
  refine ⟨by decide, (C10_total_probes (some .notJson) (some .notJson)).1 (by decide), ?_⟩
  exact (C10_total_probes (some .notJson) (some .notJson)).2.2.1 (Or.inr (Or.inr rfl))

/-- Claim C6 (confirmed): a mirrored write never changes `created_at` of
an existing record, in either revision of `dbUpsert`.  The first revision
strips `created_at` from `$set`, so the update applies and leaves the
field alone; the second revision spreads the whole patch into `$set`, and
whenever the patch carries `created_at` the update document names the path
under both `$set` and `$setOnInsert`, which MongoDB rejects as a path
conflict — the thrown error is caught and the record is untouched.  In
every case `created_at` can only be set by the `$setOnInsert` of a first
insert. -/
theorem C6_createdAt_preserved (coll : List (String × Doc)) (id : String)
    (patch : Doc) (now : Nat) (h : (getEntry coll id).isSome = true) :
    createdAtOf (dbUpsertV1 true coll id patch now) id = createdAtOf coll id
    ∧ createdAtOf (dbUpsertV2 true coll id patch now) id =
        createdAtOf coll id := by
  constructor
  · show createdAtOf (runUpsert coll id _ _) id = createdAtOf coll id
    exact runUpsert_preserves_createdAt _ _ _ _ h
  · show createdAtOf (runUpsert coll id _ _) id = createdAtOf coll id
    exact runUpsert_preserves_createdAt _ _ _ _ h

theorem C6_createdAt_preserved_witness :
    (getEntry c6coll "LK1").isSome = true
    ∧ createdAtOf c6coll "LK1" = some (JVal.n 111)
    ∧ createdAtOf (dbUpsertV1 true c6coll "LK1" c6patch 222) "LK1" =
        createdAtOf c6coll "LK1"
    ∧ createdAtOf (dbUpsertV2 true c6coll "LK1" c6patch 222) "LK1" =
        createdAtOf c6coll "LK1" := by
  refine ⟨by decide, by decide, ?_, ?_⟩
  · exact (C6_createdAt_preserved c6coll "LK1" c6patch 222 (by decide)).1
  · exact (C6_createdAt_preserved c6coll "LK1" c6patch 222 (by decide)).2

/-- Claim C4 (confirmed): under the filesystem fact that a `creds.json`
for `id` can only exist inside the session directory for `id`, the export
route answers `404 NotFound` exactly when the directory is missing,
`409 NotReady` when the directory exists but the registration probe is
false, and the zipped directory otherwise; it succeeds if and only if the
probe is true, and it performs no store write (the returned world is the
input world). -/
theorem C4_export_gate (w : World) (id : String)
    (hfs : (getEntry w.creds id).isSome = true → hasKeyL w.sessDirs id = true) :
    ((sessionRoute w id).2 = ExportResp.okZip id ↔ isRegisteredW w id = true)
    ∧ (hasKeyL w.sessDirs id = false →
        (sessionRoute w id).2 = ExportResp.notFound)
    ∧ (hasKeyL w.sessDirs id = true → isRegisteredW w id = false →
        (sessionRoute w id).2 = ExportResp.notReady)
    ∧ (sessionRoute w id).1 = w := by
  by_cases hdir : hasKeyL w.sessDirs id
  · by_cases hreg : isRegisteredW w id
    · refine ⟨?_, ?_, ?_, ?_⟩ <;> simp [sessionRoute, hdir, hreg]
    · refine ⟨?_, ?_, ?_, ?_⟩ <;> simp [sessionRoute, hdir, hreg]
  · have hreg : isRegisteredW w id = false := by
      cases hr : isRegisteredW w id
      · rfl
      · exact absurd (hfs (isRegisteredW_isSome w id hr)) hdir
    refine ⟨?_, ?_, ?_, ?_⟩ <;>
      simp [sessionRoute, hdir, hreg]

theorem C4_export_gate_witness :
    ((getEntry c4world.creds "LK4").isSome = true →
      hasKeyL c4world.sessDirs "LK4" = true)
    ∧ isRegisteredW c4world "LK4" = true
    ∧ ((sessionRoute c4world "LK4").2 = ExportResp.okZip "LK4" ↔
        isRegisteredW c4world "LK4" = true) := by
  refine ⟨by decide, by decide, (C4_export_gate c4world "LK4" (by decide)).1⟩

/-- Claim C7 (confirmed): a status read consults the primary store first;
when it yields a record, the secondary store plays no part in the
response; when the primary misses, the route falls back to the secondary
store and serves the document normalized into the record shape
`(status, created_at, expires_at, code, phone)` (`normalizeDb`); and the
route answers `404` exactly when both backends miss.  The record-serving
conjuncts are stated for the cases in which the opportunistic ready
upgrade does not fire (status already `ready`, or probe false); the
upgrade is the subject of claim C1. -/
theorem C7_status_read_fallback (now : Nat) (w : World) (id : String) :
    ((statusRoute now w id).2 = StatusResp.missing ↔
      (readStatusW w id = none ∧ dbGet w id = none))
    ∧ (∀ st, readStatusW w id = some st → st.status = some "ready" →
        statusRoute now w id = (w, StatusResp.ok st))
    ∧ (∀ st, readStatusW w id = some st → isRegisteredW w id = false →
        statusRoute now w id = (w, StatusResp.ok st))
    ∧ (∀ d, readStatusW w id = none → dbGet w id = some d →
        (normalizeDb d).status = some "ready" →
        statusRoute now w id = (w, StatusResp.ok (normalizeDb d)))
    ∧ (∀ d, readStatusW w id = none → dbGet w id = some d →
        isRegisteredW w id = false →
        statusRoute now w id = (w, StatusResp.ok (normalizeDb d))) := by
  refine ⟨?_, ?_, ?_, ?_, ?_⟩
  · cases hr : readStatusW w id with
    | some st =>
      constructor
      · intro hm
        exfalso
        by_cases hup : st.status ≠ some "ready" ∧ isRegisteredW w id = true
        · simp [statusRoute, hr, hup] at hm
        · simp [statusRoute, hr, hup] at hm
      · rintro ⟨h1, _⟩
        cases h1
    | none =>
      cases hd : dbGet w id with
      | none => simp [statusRoute, hr, hd]
      | some d =>
        constructor
        · intro hm
          exfalso
          by_cases hup : (normalizeDb d).status ≠ some "ready" ∧
              isRegisteredW w id = true
          · simp [statusRoute, hr, hd, hup] at hm
          · simp [statusRoute, hr, hd, hup] at hm
        · rintro ⟨_, h2⟩
          cases h2
  · intro st hr hready
    simp [statusRoute, hr, hready]
  · intro st hr hprobe
    simp [statusRoute, hr, hprobe]
  · intro d hr hd hready
    simp [statusRoute, hr, hd, hready]
  · intro d hr hd hprobe
    simp [statusRoute, hr, hd, hprobe]

theorem C7_status_read_fallback_witness :
    readStatusW c7world "LK7" = none
    ∧ dbGet c7world "LK7" = some c7doc
    ∧ isRegisteredW c7world "LK7" = false
    ∧ statusRoute 9 c7world "LK7" = (c7world, StatusResp.ok (normalizeDb c7doc))
    ∧ ((statusRoute 9 w0 "LK7").2 = StatusResp.missing ↔
        (readStatusW w0 "LK7" = none ∧ dbGet w0 "LK7" = none)) := by
  refine ⟨by decide, by decide, by decide, ?_, (C7_status_read_fallback 9 w0 "LK7").1⟩
  exact (C7_status_read_fallback 9 c7world "LK7").2.2.2.2 c7doc (by decide)
    (by decide) (by decide)

/-- Claim C9 (confirmed): the legacy `GET /code` route runs the
`startPairing` flow with neither the shared-secret gate nor the rate
limiter in front of it: its response is never `401` and never rate-limited
(`429`) no matter what secret is configured or provided, its resulting
world is exactly the world `startPairing` produces on the query number,
and a successful run is served as `200` with `startPairing`'s output —
whereas `POST /pair` answers `429` whenever the limiter trips and `401`
whenever the configured secret check fails. -/
theorem C9_code_route_ungated (req : Req) (w : World) (sid : String)
    (now : Nat) (oracle : Nat → Except String String) :
    (getCode req w sid now oracle).2 ≠ HttpResp.unauthorized401
    ∧ (getCode req w sid now oracle).2 ≠ HttpResp.tooMany429
    ∧ (∀ num, normalizeNumber req.queryNumber = some num →
        (getCode req w sid now oracle).1 = (startPairing w sid now num oracle).w)
    ∧ (∀ num out, normalizeNumber req.queryNumber = some num →
        (startPairing w sid now num oracle).result = Except.ok out →
        (getCode req w sid now oracle).2 = HttpResp.ok200 out)
    ∧ (∀ secretEnv, postPair true secretEnv req w sid now oracle =
        (w, HttpResp.tooMany429))
    ∧ (∀ secretEnv, checkSecret secretEnv req = false →
        postPair false secretEnv req w sid now oracle =
          (w, HttpResp.unauthorized401)) := by
  refine ⟨?_, ?_, ?_, ?_, ?_, ?_⟩
  · cases hn : normalizeNumber req.queryNumber with
    | none => simp [getCode, hn]
    | some num =>
      cases hres : (startPairing w sid now num oracle).result with
      | ok out => simp [getCode, hn, hres]
      | error e => simp [getCode, hn, hres]
  · cases hn : normalizeNumber req.queryNumber with
    | none => simp [getCode, hn]
    | some num =>
      cases hres : (startPairing w sid now num oracle).result with
      | ok out => simp [getCode, hn, hres]
      | error e => simp [getCode, hn, hres]
  · intro num hn
    cases hres : (startPairing w sid now num oracle).result with
    | ok out => simp [getCode, hn, hres]
    | error e => simp [getCode, hn, hres]
  · intro num out hn hres
    simp [getCode, hn, hres]
  · intro secretEnv
    simp [postPair]
  · intro secretEnv hcs
    simp [postPair, hcs]

theorem C9_code_route_ungated_witness :
    normalizeNumber (some "15551234567") = some "15551234567"
    ∧ (getCode { queryNumber := some "15551234567" } w0 "LK9" 0 okOracle).2 ≠
        HttpResp.unauthorized401
    ∧ (getCode { queryNumber := some "15551234567" } w0 "LK9" 0 okOracle).1 =
        (startPairing w0 "LK9" 0 "15551234567" okOracle).w := by
  refine ⟨by decide, (C9_code_route_ungated _ w0 "LK9" 0 okOracle).1, ?_⟩
  exact (C9_code_route_ungated { queryNumber := some "15551234567" } w0 "LK9"
    0 okOracle).2.2.1 "15551234567" (by decide)

/-! ## World-shape lemmas for the writing operations -/

theorem statusRoute_world (now : Nat) (w : World) (tid : String) :
    (statusRoute now w tid).1 = w ∨
    ∃ st : SessionRecord, (statusRoute now w tid).1 =
      writeStatus now w tid { st with status := some "ready" } := by
  cases hr : readStatusW w tid with
  | none =>
    cases hd : dbGet w tid with
    | none => left; simp [statusRoute, hr, hd]
    | some d =>
      by_cases hup : (normalizeDb d).status ≠ some "ready" ∧
          isRegisteredW w tid = true
      · right; exact ⟨normalizeDb d, by simp [statusRoute, hr, hd, hup]⟩
      · left; simp [statusRoute, hr, hd, hup]
  | some st =>
    by_cases hup : st.status ≠ some "ready" ∧ isRegisteredW w tid = true
    · right; exact ⟨st, by simp [statusRoute, hr, hup]⟩
    · left; simp [statusRoute, hr, hup]

theorem ttlFire_world (now : Nat) (w : World) (tid : String) :
    ttlFire now w tid = removeSocket w tid ∨
    ∃ st2 : SessionRecord, readStatusW w tid = some st2 ∧
      st2.status ≠ some "ready" ∧
      ttlFire now w tid = removeSocket
        (writeStatus now w tid { st2 with status := some "expired" }) tid := by
  cases hr : readStatusW w tid with
  | none => left; simp [ttlFire, hr]
  | some st2 =>
    by_cases hs : st2.status ≠ some "ready"
    · right; exact ⟨st2, rfl, hs, by simp [ttlFire, hr, hs]⟩
    · left; simp [ttlFire, hr, hs]

theorem persistCode_read (now : Nat) (w : World) (id : String) (c : String)
    (st : SessionRecord) (h : readStatusW w id = some st) :
    readStatusW (persistCode now w id c) id =
      some { st with code := some c } := by
  unfold persistCode
  rw [h]
  exact readStatusW_writeStatus_self now w id _

/-- Claim C1 counterexample: the claim asserts that the persisted status
only moves along `pending → code_issued → ready` or to `failed`/`expired`
from a non-terminal status.  In a world whose stored status is `"expired"`
while the credential bundle is registered, the status-query upgrade of
`GET /status/:id` rewrites the record to `"ready"` — a move out of the
terminal status `"expired"` that the claimed transition relation does not
allow. -/
theorem C1_counterexample :
    storedStatus c1world "LK1" = some "expired"
    ∧ storedStatus ((statusRoute 5 c1world "LK1").1) "LK1" = some "ready"
    ∧ ¬ claimAllowedMove "expired" "ready" := by
  exact ⟨by decide, by decide, by decide⟩

/-- Claim C1 (amended): no write performed by TTL expiry, the status-query
upgrade, or code persistence ever changes a session whose stored status is
`"ready"` to any other status — once `ready`, every one of these
operations (on any target session) leaves the stored status `"ready"`.
(The unamended transition discipline fails because the status-query
upgrade may also move a non-`ready` stored status such as `"expired"`
back to `"ready"` when the registration probe is true.) -/
theorem C1_ready_monotone (now : Nat) (w : World) (id tid : String)
    (c : String) (h : storedStatus w id = some "ready") :
    storedStatus (ttlFire now w tid) id = some "ready"
    ∧ storedStatus ((statusRoute now w tid).1) id = some "ready"
    ∧ storedStatus (persistCode now w tid c) id = some "ready" := by
  obtain ⟨r, hr, hst⟩ : ∃ r, readStatusW w id = some r ∧
      r.status = some "ready" := by
    unfold storedStatus at h
    cases hrr : readStatusW w id with
    | none => rw [hrr] at h; cases h
    | some r0 => rw [hrr] at h; exact ⟨r0, rfl, h⟩
  have hrem : ∀ w1 : World, storedStatus w1 id = some "ready" →
      storedStatus (removeSocket w1 tid) id = some "ready" := by
    intro w1 h1
    unfold storedStatus at h1 ⊢
    rwa [readStatusW_removeSocket]
  refine ⟨?_, ?_, ?_⟩
  · rcases ttlFire_world now w tid with hw | ⟨st2, hread, hs, hw⟩
    · rw [hw]; exact hrem w h
    · rw [hw]
      by_cases hid : tid = id
      · subst hid
        rw [hr] at hread
        cases hread
        exact absurd hst hs
      · refine hrem _ ?_
        rw [storedStatus_write_ne _ _ _ _ _ hid]
        exact h
  · rcases statusRoute_world now w tid with hw | ⟨st, hw⟩
    · rw [hw]; exact h
    · rw [hw]
      by_cases hid : tid = id
      · subst hid
        unfold storedStatus
        rw [readStatusW_writeStatus_self]
        rfl
      · rw [storedStatus_write_ne _ _ _ _ _ hid]
        exact h
  · by_cases hid : tid = id
    · subst hid
      unfold storedStatus
      rw [persistCode_read now w _ c r hr]
      simpa using hst
    · unfold persistCode
      rw [storedStatus_write_ne _ _ _ _ _ hid]
      exact h

theorem C1_ready_monotone_witness :
    storedStatus c1readyWorld "LKR" = some "ready"
    ∧ storedStatus (ttlFire 999 c1readyWorld "LKR") "LKR" = some "ready"
    ∧ storedStatus ((statusRoute 999 c1readyWorld "LKR").1) "LKR" = some "ready"
    ∧ storedStatus (persistCode 999 c1readyWorld "LKR" "C") "LKR" =
        some "ready" := by
  refine ⟨by decide, ?_, ?_, ?_⟩
  · exact (C1_ready_monotone 999 c1readyWorld "LKR" "LKR" "C" (by decide)).1
  · exact (C1_ready_monotone 999 c1readyWorld "LKR" "LKR" "C" (by decide)).2.1
  · exact (C1_ready_monotone 999 c1readyWorld "LKR" "LKR" "C" (by decide)).2.2

theorem readStatusW_setSockets (w : World) (l : List String) (id : String) :
    readStatusW { w with sockets := l } id = readStatusW w id := rfl

/-- Claim C2 counterexample: with an authority whose `requestPairingCode`
throws on all six attempts, the persisted status stays `"pending"` — it is
never set to `"failed"`, no error is recorded in the session record — and
the LiveHandle is neither ended nor removed (`PAIR_SOCKETS` still holds
the id): the failure path of `startPairing` throws before the TTL timer or
any teardown is reached, so the claimed `failed`-marking and
handle-removal do not happen. -/
theorem C2_counterexample :
    c2run.result = Except.error "boom"
    ∧ c2run.attempts = 6
    ∧ storedStatus c2run.w "LK1" = some "pending"
    ∧ storedStatus c2run.w "LK1" ≠ some "failed"
    ∧ (readStatusW c2run.w "LK1").map SessionRecord.error = some none
    ∧ hasKeyL c2run.w.sockets "LK1" = true
    ∧ hasKeyL c2run.w.ended "LK1" = false := by
  exact ⟨by decide, by decide, by decide, by decide, by decide, by decide,
    by decide⟩

/-- Claim C2 (amended): when all 6 pairing-code attempts fail, exactly 6
attempts are made and the captured error propagates out of `startPairing`,
so the `/pair` handler answers `500` with that error's message; but the
session's persisted status remains `"pending"` (no `failed` status and no
error field is written), the LiveHandle stays registered (the handshake is
not ended on this path), and no TTL timer is armed. -/
theorem C2_exhausted_retry (w : World) (sid : String) (now : Nat)
    (rawNum : Option String) (num : String)
    (oracle : Nat → Except String String)
    (hfail : ∀ j, j < 6 → failAttempt (oracle j) = true)
    (hnum : normalizeNumber rawNum = some num) :
    (startPairing w sid now num oracle).attempts = 6
    ∧ (∃ e, (startPairing w sid now num oracle).result = Except.error e
        ∧ pairHandler w sid now rawNum oracle =
            ((startPairing w sid now num oracle).w,
              HttpResp.err500 (if e = "" then "Pairing service failed" else e)))
    ∧ readStatusW (startPairing w sid now num oracle).w sid =
        some (pendingRecord now num)
    ∧ hasKeyL (startPairing w sid now num oracle).w.sockets sid = true
    ∧ (startPairing w sid now num oracle).timerFireAt = none := by
  have hfail0 : ∀ j, j < 6 → failAttempt (oracle (0 + j)) = true := by
    intro j hj
    rw [Nat.zero_add]
    exact hfail j hj
  obtain ⟨e, el2, heq⟩ := requestPairCodeGo_allFail oracle 6 0 none 0 hfail0
  have hloop : requestPairCode oracle 6 = ⟨Except.error e, 6, el2⟩ := by
    unfold requestPairCode
    simpa using heq
  have hres : (startPairing w sid now num oracle).result = Except.error e := by
    simp [startPairing, hloop]
  refine ⟨?_, ⟨e, hres, ?_⟩, ?_, ?_, ?_⟩
  · simp [startPairing, hloop]
  · simp only [pairHandler, hnum]
    rw [hres]
  · simp only [startPairing, hloop]
    rw [readStatusW_setSockets]
    exact readStatusW_writeStatus_self now _ sid _
  · simp only [startPairing, hloop]
    simp [hasKeyL]
  · simp [startPairing, hloop]

theorem C2_exhausted_retry_witness :
    (∀ j, j < 6 → failAttempt (failOracle j) = true)
    ∧ normalizeNumber (some "15551234567") = some "15551234567"
    ∧ (startPairing w0 "LK1" 0 "15551234567" failOracle).attempts = 6
    ∧ (startPairing w0 "LK1" 0 "15551234567" failOracle).timerFireAt = none := by
  refine ⟨by decide, by decide, ?_, ?_⟩
  · exact (C2_exhausted_retry w0 "LK1" 0 (some "15551234567") "15551234567"
      failOracle (by decide) (by decide)).1
  · exact (C2_exhausted_retry w0 "LK1" 0 (some "15551234567") "15551234567"
      failOracle (by decide) (by decide)).2.2.2.2

/-- Claim C3 counterexample: on a run whose first pairing-code request
succeeds, the code is persisted, but the stored status remains
`"pending"` — it never becomes `"code_issued"`: the success write is
`writeStatus(id, {...st, code})`, which does not touch `status`, and the
string `"code_issued"` appears nowhere in the source. -/
theorem C3_counterexample :
    c3run.result = Except.ok ⟨"LK1", "LKCODE12", 600000⟩
    ∧ storedStatus c3run.w "LK1" = some "pending"
    ∧ storedStatus c3run.w "LK1" ≠ some "code_issued"
    ∧ (readStatusW c3run.w "LK1").map SessionRecord.code =
        some (some "LKCODE12") := by
  exact ⟨by decide, by decide, by decide, by decide⟩

/-- Claim C3 (amended): when a pairing-code request succeeds, the code is
persisted into the session record, but the status is left unchanged at
`"pending"` (no `code_issued` status exists in the code); a subsequent
status read observes status `"pending"` together with the non-empty
code. -/
theorem C3_code_persisted (w : World) (sid : String) (now : Nat)
    (num : String) (oracle : Nat → Except String String) (c : String)
    (hok : (requestPairCode oracle 6).result = Except.ok c) :
    (startPairing w sid now num oracle).result =
      Except.ok ⟨sid, c, now + ttlMs⟩
    ∧ readStatusW (startPairing w sid now num oracle).w sid =
        some { pendingRecord now num with code := some c }
    ∧ storedStatus (startPairing w sid now num oracle).w sid =
        some "pending" := by
  have h2 : readStatusW (startPairing w sid now num oracle).w sid =
      some { pendingRecord now num with code := some c } := by
    simp only [startPairing, hok]
    rw [persistCode_read now _ sid c (pendingRecord now num) ?hpend]
    case hpend =>
      rw [readStatusW_setSockets]
      exact readStatusW_writeStatus_self now _ sid _
  refine ⟨?_, h2, ?_⟩
  · simp [startPairing, hok]
  · unfold storedStatus
    rw [h2]
    rfl

theorem C3_code_persisted_witness :
    (requestPairCode okOracle 6).result = Except.ok "LKCODE12"
    ∧ readStatusW (startPairing w0 "LK3" 0 "15551234567" okOracle).w "LK3" =
        some { pendingRecord 0 "15551234567" with code := some "LKCODE12" } := by
  refine ⟨by decide, ?_⟩
  exact (C3_code_persisted w0 "LK3" 0 "15551234567" okOracle "LKCODE12"
    (by decide)).2.1

/-- Claim C5 counterexample: the claim says exactly one expiry timer is
scheduled at creation to fire at `expires_at`.  In the run whose code
requests all fail, a session record is created (status `"pending"`) but no
timer is ever scheduled — `setTimeout` sits after the `await
requestPairCode(...)`, whose exception skips it.  And in the run whose
first code request succeeds, the timer is armed only after the code
arrives, so it fires at creation + 400ms warm-up + TTL = 600400, not at
`expires_at` = 600000. -/
theorem C5_counterexample :
    storedStatus c2run.w "LK1" = some "pending"
    ∧ c2run.timerFireAt = none
    ∧ c3run.timerFireAt = some 600400
    ∧ (600400 : Nat) ≠ 0 + ttlMs := by
  exact ⟨by decide, by decide, by decide, by decide⟩

/-- Claim C5 (amended): a single expiry timer is armed only when the
pairing-code request succeeds — firing `ttlMs` after the code is obtained,
hence at least 400ms (the warm-up delay) after `expires_at` — and no timer
is armed when the code request fails.  When the timer's callback runs: if
the stored status is readable and not `"ready"` it is rewritten to
`"expired"`; a `"ready"` record (and an unreadable one) is left untouched;
and in every case the socket registry no longer holds the id afterwards,
with a still-registered socket being ended. -/
theorem C5_ttl_behavior (w : World) (sid : String) (now : Nat)
    (num : String) (oracle : Nat → Except String String)
    (now2 : Nat) (w2 : World) (id : String) :
    (∀ e, (startPairing w sid now num oracle).result = Except.error e →
      (startPairing w sid now num oracle).timerFireAt = none)
    ∧ (∀ out, (startPairing w sid now num oracle).result = Except.ok out →
        ∃ t, (startPairing w sid now num oracle).timerFireAt = some t ∧
          now + ttlMs + 400 ≤ t)
    ∧ (∀ r, readStatusW w2 id = some r → r.status ≠ some "ready" →
        readStatusW (ttlFire now2 w2 id) id =
          some { r with status := some "expired" })
    ∧ (∀ r, readStatusW w2 id = some r → r.status = some "ready" →
        (ttlFire now2 w2 id).active = w2.active)
    ∧ (readStatusW w2 id = none → (ttlFire now2 w2 id).active = w2.active)
    ∧ hasKeyL (ttlFire now2 w2 id).sockets id = false
    ∧ (hasKeyL w2.sockets id = true →
        hasKeyL (ttlFire now2 w2 id).ended id = true) := by
  refine ⟨?_, ?_, ?_, ?_, ?_, ?_, ?_⟩
  · intro e he
    cases hres : (requestPairCode oracle 6).result with
    | ok c =>
      rw [show (startPairing w sid now num oracle).result =
          Except.ok ⟨sid, c, now + ttlMs⟩ by simp [startPairing, hres]] at he
      cases he
    | error e0 => simp [startPairing, hres]
  · intro out hout
    cases hres : (requestPairCode oracle 6).result with
    | error e0 =>
      rw [show (startPairing w sid now num oracle).result = Except.error e0 by
        simp [startPairing, hres]] at hout
      cases hout
    | ok c =>
      refine ⟨now + (requestPairCode oracle 6).elapsed + ttlMs, ?_, ?_⟩
      · simp [startPairing, hres]
      · have := requestPairCodeGo_ok_elapsed oracle 6 0 none 0 c
          (by simpa [requestPairCode] using hres)
        have h400 : 400 ≤ (requestPairCode oracle 6).elapsed := by
          simpa [requestPairCode] using this
        omega
  · intro r hread hne
    have h1 : ttlFire now2 w2 id =
        removeSocket (writeStatus now2 w2 id { r with status := some "expired" }) id := by
      simp [ttlFire, hread, hne]
    rw [h1, readStatusW_removeSocket]
    exact readStatusW_writeStatus_self now2 w2 id _
  · intro r hread hrd
    have h1 : ttlFire now2 w2 id = removeSocket w2 id := by
      simp [ttlFire, hread, hrd]
    rw [h1, removeSocket_active]
  · intro hread
    have h1 : ttlFire now2 w2 id = removeSocket w2 id := by
      simp [ttlFire, hread]
    rw [h1, removeSocket_active]
  · unfold ttlFire
    exact removeSocket_noSocket _ id
  · intro hsock
    rcases ttlFire_world now2 w2 id with hw | ⟨st2, hh1, hh2, hw⟩
    · rw [hw]
      unfold removeSocket
      rw [if_pos hsock]
      simp [hasKeyL]
    · rw [hw]
      unfold removeSocket
      rw [writeStatus_sockets, if_pos hsock]
      simp [hasKeyL]

theorem C5_ttl_behavior_witness :
    readStatusW c5world "LK5" = some (pendingRecord 0 "15551234567")
    ∧ (pendingRecord 0 "15551234567").status ≠ some "ready"
    ∧ readStatusW (ttlFire 600000 c5world "LK5") "LK5" =
        some { pendingRecord 0 "15551234567" with status := some "expired" }
    ∧ hasKeyL (ttlFire 600000 c5world "LK5").sockets "LK5" = false
    ∧ hasKeyL (ttlFire 600000 c5world "LK5").ended "LK5" = true := by
  refine ⟨by decide, by decide, ?_, ?_, ?_⟩
  · exact (C5_ttl_behavior w0 "x" 0 "x" okOracle 600000 c5world "LK5").2.2.1
      (pendingRecord 0 "15551234567") (by decide) (by decide)
  · exact (C5_ttl_behavior w0 "x" 0 "x" okOracle 600000 c5world "LK5").2.2.2.2.2.1
  · exact (C5_ttl_behavior w0 "x" 0 "x" okOracle 600000 c5world "LK5").2.2.2.2.2.2
      (by decide)

/-- Claim C8 (code bug, evaluated): the `finalized` latch is read in the
guard *before* the 1200ms settle delay and set only *after* the
registration probe, so two `"open"` events that both pass the guard before
either reaches the probe each run the full ready sequence: under the
racing schedule the welcome notification is attempted twice (`sendCount =
2`) even though the latch starts unset, whereas under a serial schedule —
one handler run completing before the next starts — the latch works and
the notification is attempted exactly once. -/
theorem C8_latch_race_eval :
    c8init.sh.finalized = false
    ∧ (sysRun 10 "LK1" false c8init c8raceSchedule).sh.sendCount = 2
    ∧ (sysRun 10 "LK1" false c8init c8serialSchedule).sh.sendCount = 1 := by
  exact ⟨by decide, by decide, by decide⟩

end LordKarma
